import Mathlib

/-!
Verification development for the `paper2/python_diag` visualization scripts of
the evmauth-core repository.

The repository holds fourteen standalone generator scripts, each a linear
sequence of plotting-library calls ending in two `plt.savefig` calls and one
success `print`, plus one orchestrator (`generate_all.py`) that runs each
generator as a subprocess and aggregates pass/fail.

We embed each generator as a list of statements (`Stmt`) read off its module
body, and give the Python run semantics as a function from a fault model to the
observable effects (lines printed, files written) and the process exit code.
A fault `some (k, msg)` means the k-th statement — necessarily a
plotting-library call (`lib` or `save`) — raises an exception with message
`msg`; `none` means no library call raises.  Thirteen scripts have no handler:
an uncaught exception makes the interpreter emit a traceback on standard error
and exit 1.  `4_deployment_stacked_bar.py` alone wraps its body in
`try/except/finally`: the `except` prints the error to standard output and
calls `exit(1)`, and the `finally` prints the success message unconditionally.

The orchestrator is embedded as `runMain`, faithful to `generate_all.py`:
a dependency check (matplotlib/numpy import), a loop over the fixed `scripts`
list invoking `[sys.executable, script]` with captured output and collecting
failures, and a final success summary or failure list with the matching exit
status.
-/

namespace EVMAuthDiag

/-- The two standard output streams a process can print to. -/
inductive StdStream
  | stdout
  | stderr
deriving DecidableEq, Repr

/-- One statement of a generator script's linear top-level code.  Contiguous
runs of plotting-library calls that neither write a file nor print (style
setup, `rcParams` assignments, drawing, annotation, `tight_layout`,
`plt.close`) are collapsed into a single `lib` marker; `save f` is a
`plt.savefig(f)` call; `echo m` is a `print(m)`; `readIn src` is a read of
external input (command-line argument, environment variable, file, network) —
no generator script contains one. -/
inductive Stmt
  | lib
  | save (fileName : String)
  | echo (msg : String)
  | readIn (src : String)
deriving DecidableEq, Repr

/-- An observable effect of a process run: a line printed by the script itself
to a stream, a file written into the current working directory, an external
input consumed, or the interpreter's uncaught-exception traceback (which the
Python interpreter writes to standard error). -/
inductive Effect
  | printLine (s : StdStream) (msg : String)
  | writeFile (fileName : String)
  | consumed (src : String) (value : Option String)
  | traceback (msg : String)
deriving DecidableEq, Repr

/-- The external surroundings of a process: command-line arguments and a map
from input sources (environment variables, file paths) to their contents. -/
structure Env where
  argv : List String
  inputs : String → Option String

/-- The observable outcome of running one script process. -/
structure RunResult where
  effects : List Effect
  exitCode : Nat
deriving Repr

/-- An embedded generator script.  The thirteen scripts without an exception
handler are `plain` module bodies; `4_deployment_stacked_bar.py` is `guarded`:
its module body sits in a `try` block, the `except` clause prints
`errMsgHead ++ e` to standard output and calls `exit(exceptExit)`, and the
`finally` clause prints `finallyMsg` to standard output on every path
(lines 10-92 of that file). -/
inductive Script
  | plain (fileName : String) (body : List Stmt)
  | guarded (fileName : String) (tryBody : List Stmt) (errMsgHead : String)
      (exceptExit : Nat) (finallyMsg : String)
deriving DecidableEq, Repr

/-- The script's source file name. -/
def Script.fileName : Script → String
  | Script.plain n _ => n
  | Script.guarded n _ _ _ _ => n

/-- The script's linear statement sequence (for a guarded script, the body of
its `try` block). -/
def Script.body : Script → List Stmt
  | Script.plain _ b => b
  | Script.guarded _ b _ _ _ => b

/-- Effects of executing a statement list to completion, in order.  Only a
`readIn` statement consults the environment. -/
def runBody (env : Env) : List Stmt → List Effect
  | [] => []
  | Stmt.lib :: rest => runBody env rest
  | Stmt.save f :: rest => Effect.writeFile f :: runBody env rest
  | Stmt.echo m :: rest =>
      Effect.printLine StdStream.stdout m :: runBody env rest
  | Stmt.readIn src :: rest =>
      Effect.consumed src (env.inputs src) :: runBody env rest

/-- Whether a statement is a plotting-library call that can raise: the style,
drawing and close calls (`lib`) and the `plt.savefig` calls (`save`). -/
def raisable : Stmt → Bool
  | Stmt.lib => true
  | Stmt.save _ => true
  | _ => false

/-- A valid fault: `none` (no library call raises), or `some (k, msg)` where
the k-th statement of the script's body is a plotting-library call. -/
def faultOk (g : Script) : Option (Nat × String) → Bool
  | none => true
  | some (k, _) =>
      match (Script.body g)[k]? with
      | some st => raisable st
      | none => false

/-- Python run semantics of an embedded script under a fault.  With no fault
the body runs to completion and the process exits 0 (for the guarded script
the `finally` clause then prints the success message).  When statement `k`
raises: a plain script keeps the effects of the statements already executed
and the interpreter prints the traceback to standard error and exits 1; the
guarded script's `except` clause prints the error message to standard output,
its `finally` clause prints the success message, and the process exits with
the handler's `exit` code. -/
def runScript (env : Env) (g : Script) (fault : Option (Nat × String)) :
    RunResult :=
  match g, fault with
  | Script.plain _ body, none => ⟨runBody env body, 0⟩
  | Script.plain _ body, some (k, msg) =>
      ⟨runBody env (body.take k) ++ [Effect.traceback msg], 1⟩
  | Script.guarded _ tryBody _ _ finMsg, none =>
      ⟨runBody env tryBody ++ [Effect.printLine StdStream.stdout finMsg], 0⟩
  | Script.guarded _ tryBody errHead exCode finMsg, some (k, msg) =>
      ⟨runBody env (tryBody.take k) ++
         [Effect.printLine StdStream.stdout (errHead ++ msg),
          Effect.printLine StdStream.stdout finMsg], exCode⟩

/-- The files a run wrote, in order. -/
def filesWritten (r : RunResult) : List String :=
  r.effects.filterMap fun e =>
    match e with
    | Effect.writeFile f => some f
    | _ => none

/-! The fourteen generator scripts, embedded from their sources.  Each plain
script is: style setup (`lib`), drawing and annotation (`lib`), the two
`plt.savefig` calls, the success `print`, and `plt.close()` (`lib`). -/

/-- 1_network_cost_comparison.py (lines 10-83): grouped bar chart; saves at
lines 80-81, prints at 82, closes at 83. -/
def gen_network_cost_comparison : Script :=
  Script.plain "1_network_cost_comparison.py"
    [Stmt.lib, Stmt.lib,
     Stmt.save "network_cost_comparison.pdf",
     Stmt.save "network_cost_comparison.png",
     Stmt.echo "✓ Generated: network_cost_comparison.pdf/png",
     Stmt.lib]

/-- 2_infrastructure_cost_pie.py (lines 10-71): pie charts; saves at
lines 68-69, prints at 70, closes at 71. -/
def gen_infrastructure_cost_pie : Script :=
  Script.plain "2_infrastructure_cost_pie.py"
    [Stmt.lib, Stmt.lib,
     Stmt.save "infrastructure_cost_pie.pdf",
     Stmt.save "infrastructure_cost_pie.png",
     Stmt.echo "✓ Generated: infrastructure_cost_pie.pdf/png",
     Stmt.lib]

/-- 3_tco_line_chart.py: line chart; saves at lines 100-101, prints at 102,
closes at 103. -/
def gen_tco_line_chart : Script :=
  Script.plain "3_tco_line_chart.py"
    [Stmt.lib, Stmt.lib,
     Stmt.save "tco_line_chart.pdf",
     Stmt.save "tco_line_chart.png",
     Stmt.echo "✓ Generated: tco_line_chart.pdf/png",
     Stmt.lib]

/-- 4_deployment_stacked_bar.py (lines 10-92): the one guarded script.  The
`try` body is style setup, stacked-bar drawing, the two `plt.savefig` calls
(lines 85-86) and `plt.close()`; the `except` clause (lines 88-90) prints the
error to standard output and calls `exit(1)`; the `finally` clause (lines
91-92) prints the success message. -/
def gen_deployment_stacked_bar : Script :=
  Script.guarded "4_deployment_stacked_bar.py"
    [Stmt.lib, Stmt.lib,
     Stmt.save "deployment_stacked_bar.pdf",
     Stmt.save "deployment_stacked_bar.png",
     Stmt.lib]
    "✗ Error generating deployment_stacked_bar: " 1
    "✓ Generated: deployment_stacked_bar.pdf/png"

/-- 5_operation_costs_radar.py: radar chart; saves at lines 90-91, prints at
92, closes at 93. -/
def gen_operation_costs_radar : Script :=
  Script.plain "5_operation_costs_radar.py"
    [Stmt.lib, Stmt.lib,
     Stmt.save "operation_costs_radar.pdf",
     Stmt.save "operation_costs_radar.png",
     Stmt.echo "✓ Generated: operation_costs_radar.pdf/png",
     Stmt.lib]

/-- 6_deployment_waterfall.py: waterfall chart; saves at lines 125-126, prints
at 127, closes at 128. -/
def gen_deployment_waterfall : Script :=
  Script.plain "6_deployment_waterfall.py"
    [Stmt.lib, Stmt.lib,
     Stmt.save "deployment_waterfall.pdf",
     Stmt.save "deployment_waterfall.png",
     Stmt.echo "✓ Generated: deployment_waterfall.pdf/png",
     Stmt.lib]

/-- 7_seven_primitives_wheel.py: wheel diagram; saves at lines 106-107, prints
at 108, closes at 109. -/
def gen_seven_primitives_wheel : Script :=
  Script.plain "7_seven_primitives_wheel.py"
    [Stmt.lib, Stmt.lib,
     Stmt.save "seven_primitives_wheel.pdf",
     Stmt.save "seven_primitives_wheel.png",
     Stmt.echo "✓ Generated: seven_primitives_wheel.pdf/png",
     Stmt.lib]

/-- 8_contract_hierarchy.py: hierarchy diagram; saves at lines 156-157, prints
at 158, closes at 159. -/
def gen_contract_hierarchy : Script :=
  Script.plain "8_contract_hierarchy.py"
    [Stmt.lib, Stmt.lib,
     Stmt.save "contract_hierarchy.pdf",
     Stmt.save "contract_hierarchy.png",
     Stmt.echo "✓ Generated: contract_hierarchy.pdf/png",
     Stmt.lib]

/-- 9_multi_currency_pricing.py: pricing diagram; saves at lines 145-146,
prints at 147, closes at 148. -/
def gen_multi_currency_pricing : Script :=
  Script.plain "9_multi_currency_pricing.py"
    [Stmt.lib, Stmt.lib,
     Stmt.save "multi_currency_pricing.pdf",
     Stmt.save "multi_currency_pricing.png",
     Stmt.echo "✓ Generated: multi_currency_pricing.pdf/png",
     Stmt.lib]

/-- 10_token_lifecycle.py: lifecycle diagram; saves at lines 208-209, prints
at 210, closes at 211. -/
def gen_token_lifecycle : Script :=
  Script.plain "10_token_lifecycle.py"
    [Stmt.lib, Stmt.lib,
     Stmt.save "token_lifecycle.pdf",
     Stmt.save "token_lifecycle.png",
     Stmt.echo "✓ Generated: token_lifecycle.pdf/png",
     Stmt.lib]

/-- 11_ai_agent_workflow.py: workflow diagram; saves at lines 192-193, prints
at 194, closes at 195. -/
def gen_ai_agent_workflow : Script :=
  Script.plain "11_ai_agent_workflow.py"
    [Stmt.lib, Stmt.lib,
     Stmt.save "ai_agent_workflow.pdf",
     Stmt.save "ai_agent_workflow.png",
     Stmt.echo "✓ Generated: ai_agent_workflow.pdf/png",
     Stmt.lib]

/-- 12_composability_stack.py: stack diagram; saves at lines 225-226, prints
at 227, closes at 228. -/
def gen_composability_stack : Script :=
  Script.plain "12_composability_stack.py"
    [Stmt.lib, Stmt.lib,
     Stmt.save "composability_stack.pdf",
     Stmt.save "composability_stack.png",
     Stmt.echo "✓ Generated: composability_stack.pdf/png",
     Stmt.lib]

/-- 13_gas_optimization_tradeoffs.py: tradeoff chart; saves at lines 207-208,
prints at 209, closes at 210. -/
def gen_gas_optimization_tradeoffs : Script :=
  Script.plain "13_gas_optimization_tradeoffs.py"
    [Stmt.lib, Stmt.lib,
     Stmt.save "gas_optimization_tradeoffs.pdf",
     Stmt.save "gas_optimization_tradeoffs.png",
     Stmt.echo "✓ Generated: gas_optimization_tradeoffs.pdf/png",
     Stmt.lib]

/-- 14_paradigm_shift.py: comparison diagram; saves at lines 230-231, prints
at 232, closes at 233. -/
def gen_paradigm_shift : Script :=
  Script.plain "14_paradigm_shift.py"
    [Stmt.lib, Stmt.lib,
     Stmt.save "paradigm_shift.pdf",
     Stmt.save "paradigm_shift.png",
     Stmt.echo "✓ Generated: paradigm_shift.pdf/png",
     Stmt.lib]

/-- The fourteen generator scripts, in the orchestrator's order. -/
def generators : List Script :=
  [gen_network_cost_comparison,
   gen_infrastructure_cost_pie,
   gen_tco_line_chart,
   gen_deployment_stacked_bar,
   gen_operation_costs_radar,
   gen_deployment_waterfall,
   gen_seven_primitives_wheel,
   gen_contract_hierarchy,
   gen_multi_currency_pricing,
   gen_token_lifecycle,
   gen_ai_agent_workflow,
   gen_composability_stack,
   gen_gas_optimization_tradeoffs,
   gen_paradigm_shift]

/-- An environment with no arguments and no external inputs. -/
def env0 : Env := ⟨[], fun _ => none⟩

/-! The orchestrator, embedded from generate_all.py. -/

/-- The list of all visualization scripts, in order (generate_all.py lines
12-29). -/
def scripts : List String :=
  ["1_network_cost_comparison.py",
   "2_infrastructure_cost_pie.py",
   "3_tco_line_chart.py",
   "4_deployment_stacked_bar.py",
   "5_operation_costs_radar.py",
   "6_deployment_waterfall.py",
   "7_seven_primitives_wheel.py",
   "8_contract_hierarchy.py",
   "9_multi_currency_pricing.py",
   "10_token_lifecycle.py",
   "11_ai_agent_workflow.py",
   "12_composability_stack.py",
   "13_gas_optimization_tradeoffs.py",
   "14_paradigm_shift.py"]

/-- The outcome of a `subprocess.run` with `capture_output=True, text=True`:
captured standard output, captured standard error, and the exit status. -/
structure SubprocResult where
  stdout : String
  stderr : String
  returncode : Nat
deriving DecidableEq, Repr

/-- The state of the plotting dependencies at orchestrator start: whether
`import matplotlib` and `import numpy` succeed, the version strings printed
when they do, and the `ImportError` message printed when they do not. -/
structure Deps where
  ok : Bool
  mpVersion : String
  npVersion : String
  errMsg : String

/-- The observable outcome of `main()` in generate_all.py: the argument
vectors of the subprocesses it spawned in order, the lines it printed to
standard output, its accumulated `failed` list, and its exit status. -/
structure MainResult where
  invoked : List (List String)
  printed : List String
  failed : List String
  exitCode : Nat

/-- Seventy equals signs, the orchestrator's heavy rule line. -/
def ruleLine : String := String.mk (List.replicate 70 '=')

/-- Seventy dashes, the orchestrator's light rule line. -/
def dashLine : String := String.mk (List.replicate 70 '-')

/-- The per-iteration progress line (generate_all.py line 55). -/
def loopHeader (i : Nat) (s : String) : String :=
  "\n[" ++ toString i ++ "/" ++ toString scripts.length ++ "] Running " ++
    s ++ "..."

/-- The orchestrator's generation loop (generate_all.py lines 53-68): for each
script, in order, run `[sys.executable, script]` with captured output; on exit
status 0 print the stripped captured standard output; otherwise print the
failure line and the captured standard error and append the script to the
`failed` list.  Returns the spawned argument vectors, the printed lines, and
the `failed` list. -/
def runLoop (py : String) (exec : String → SubprocResult) :
    Nat → List String → List (List String) × List String × List String
  | _, [] => ([], [], [])
  | i, s :: rest =>
      let r := exec s
      let next := runLoop py exec (i + 1) rest
      if r.returncode = 0 then
        ([py, s] :: next.1, loopHeader i s :: r.stdout.trim :: next.2.1,
         next.2.2)
      else
        ([py, s] :: next.1,
         loopHeader i s :: ("✗ Failed to generate " ++ s) ::
           ("Error: " ++ r.stderr) :: next.2.1,
         s :: next.2.2)

/-- The six Cost & Performance Analysis output base names listed in the
success summary (generate_all.py lines 74-80). -/
def costBases : List String :=
  ["network_cost_comparison", "infrastructure_cost_pie", "tco_line_chart",
   "deployment_stacked_bar", "operation_costs_radar", "deployment_waterfall"]

/-- The eight Architecture & Design output base names listed in the success
summary (generate_all.py lines 81-89). -/
def archBases : List String :=
  ["seven_primitives_wheel", "contract_hierarchy", "multi_currency_pricing",
   "token_lifecycle", "ai_agent_workflow", "composability_stack",
   "gas_optimization_tradeoffs", "paradigm_shift"]

/-- All fourteen expected output file base names, in the order the success
summary prints them. -/
def expectedBases : List String := costBases ++ archBases

/-- The success-summary lines (generate_all.py lines 71-89). -/
def successSummary : List String :=
  ["✓ All visualizations generated successfully!", "", "Generated files:",
   "\nCost & Performance Analysis:"] ++
  costBases.map (fun b => "  • " ++ b ++ ".pdf/png") ++
  ["\nArchitecture & Design:"] ++
  archBases.map (fun b => "  • " ++ b ++ ".pdf/png")

/-- `main()` of generate_all.py.  Prints the banner; if the dependency import
fails, prints the missing-dependency message and exits 1 before spawning any
subprocess.  Otherwise prints the version lines, runs the generation loop
over `scripts`, and finishes with either the success summary and exit status 0
(when `failed` is empty) or the failure count and the failure list with exit
status 1 (the trailing rule line at generate_all.py line 96 is only reached on
the success path, because the failure branch calls `sys.exit(1)`). -/
def runMain (py : String) (deps : Deps) (exec : String → SubprocResult) :
    MainResult :=
  let hdr := [ruleLine, "EVMAuth Paper Visualization Generator", ruleLine, ""]
  if deps.ok then
    let depLines := ["✓ matplotlib " ++ deps.mpVersion ++ " found",
                     "✓ numpy " ++ deps.npVersion ++ " found"]
    let mid := ["", "Generating visualizations...", dashLine]
    let res := runLoop py exec 1 scripts
    if res.2.2.isEmpty then
      { invoked := res.1,
        printed := hdr ++ depLines ++ mid ++ res.2.1 ++ ["", ruleLine] ++
          successSummary ++ [ruleLine],
        failed := res.2.2, exitCode := 0 }
    else
      { invoked := res.1,
        printed := hdr ++ depLines ++ mid ++ res.2.1 ++ ["", ruleLine,
          "✗ " ++ toString res.2.2.length ++ " visualization(s) failed:"] ++
          res.2.2.map (fun s => "  • " ++ s),
        failed := res.2.2, exitCode := 1 }
  else
    { invoked := [],
      printed := hdr ++ ["✗ Missing dependency: " ++ deps.errMsg,
        "\nPlease install requirements:",
        "  pip install -r requirements.txt"],
      failed := [], exitCode := 1 }

/-- Whether a statement reads external input. -/
def stmtReads : Stmt → Bool
  | Stmt.readIn _ => true
  | _ => false

/-- A script reads no external input: its body holds no `readIn` statement. -/
def readsNoInput (g : Script) : Bool :=
  (Script.body g).all fun st => !stmtReads st

/-- The exit status a script has when a library call raises: 1 (from the
interpreter) for a plain script, the handler's `exit` argument for a guarded
one. -/
def exitOnFault : Script → Nat
  | Script.plain _ _ => 1
  | Script.guarded _ _ _ ec _ => ec

/-- Whether a script is a plain module body with no exception handler. -/
def isPlain : Script → Bool
  | Script.plain _ _ => true
  | Script.guarded _ _ _ _ _ => false

/-- An error mentioning the exception message reached the console: either the
interpreter traceback, or a line the script printed that ends in the
message. -/
def ErrorReported (msg : String) (r : RunResult) : Prop :=
  Effect.traceback msg ∈ r.effects ∨
    ∃ h, Effect.printLine StdStream.stdout (h ++ msg) ∈ r.effects

/-- Whether an effect is an interpreter traceback. -/
def isTraceback : Effect → Bool
  | Effect.traceback _ => true
  | _ => false

/-- Whether an effect is a script-printed line on standard error. -/
def isStderrPrint : Effect → Bool
  | Effect.printLine StdStream.stderr _ => true
  | _ => false

/-- The run shows an interpreter traceback, i.e. the exception escaped the
script uncaught. -/
def uncaught (r : RunResult) : Bool :=
  r.effects.any isTraceback

/-- The script itself printed some line to standard error. -/
def printedToStderr (r : RunResult) : Bool :=
  r.effects.any isStderrPrint

/-- A dependency state in which matplotlib and numpy import fine. -/
def depsPresent : Deps := ⟨true, "3.8.0", "1.26.0", ""⟩

/-- A dependency state in which the matplotlib import raises. -/
def depsMissing : Deps := ⟨false, "", "", "No module named matplotlib"⟩

/-- A subprocess behaviour in which every generator succeeds. -/
def execAllOk : String → SubprocResult :=
  fun _ => ⟨"✓ Generated: ok", "", 0⟩

/-- A subprocess behaviour in which exactly the first generator fails. -/
def execFailFirst : String → SubprocResult :=
  fun s =>
    if s = "1_network_cost_comparison.py" then ⟨"", "Traceback: boom", 1⟩
    else ⟨"✓ Generated: ok", "", 0⟩

/-- An environment with arguments and external inputs present, for contrast
with `env0`. -/
def envArgs : Env := ⟨["--unused"], fun s => some s⟩

/-! Lemmas about the orchestrator loop. -/

/-- The loop spawns one subprocess per script, in list order, each with the
interpreter and the script name as its only arguments, regardless of which
subprocesses fail. -/
theorem runLoop_invoked (py : String) (exec : String → SubprocResult) :
    ∀ (i : Nat) (ss : List String),
      (runLoop py exec i ss).1 = ss.map (fun s => [py, s]) := by
  intro i ss
  induction ss generalizing i with
  | nil => rfl
  | cons s rest ih =>
      simp only [runLoop, List.map_cons]
      split
      · simpa using ih (i + 1)
      · simpa using ih (i + 1)

/-- The loop's `failed` list is exactly the scripts whose subprocess exited
non-zero, in list order. -/
theorem runLoop_failed (py : String) (exec : String → SubprocResult) :
    ∀ (i : Nat) (ss : List String),
      (runLoop py exec i ss).2.2 =
        ss.filter (fun s => decide ((exec s).returncode ≠ 0)) := by
  intro i ss
  induction ss generalizing i with
  | nil => rfl
  | cons s rest ih =>
      simp only [runLoop, List.filter_cons]
      by_cases h : (exec s).returncode = 0
      · simpa [h] using ih (i + 1)
      · simpa [h] using ih (i + 1)

/-- For each script the loop prints the captured standard output (stripped)
when its subprocess exits 0, and the captured standard error when it exits
non-zero. -/
theorem runLoop_lines (py : String) (exec : String → SubprocResult) :
    ∀ (i : Nat) (ss : List String), ∀ s ∈ ss,
      ((exec s).returncode = 0 →
        (exec s).stdout.trim ∈ (runLoop py exec i ss).2.1) ∧
      ((exec s).returncode ≠ 0 →
        ("Error: " ++ (exec s).stderr) ∈ (runLoop py exec i ss).2.1) := by
  intro i ss
  induction ss generalizing i with
  | nil => intro s hs; cases hs
  | cons t rest ih =>
      intro s hs
      rcases List.mem_cons.mp hs with rfl | hs
      · constructor
        · intro h0
          simp only [runLoop]
          rw [if_pos h0]
          exact List.mem_cons_of_mem _ (List.mem_cons_self _ _)
        · intro h0
          simp only [runLoop]
          rw [if_neg h0]
          exact List.mem_cons_of_mem _ (List.mem_cons_of_mem _
            (List.mem_cons_self _ _))
      · constructor
        · intro h0
          simp only [runLoop]
          split
          · exact List.mem_cons_of_mem _ (List.mem_cons_of_mem _
              ((ih (i + 1) s hs).1 h0))
          · exact List.mem_cons_of_mem _ (List.mem_cons_of_mem _
              (List.mem_cons_of_mem _ ((ih (i + 1) s hs).1 h0)))
        · intro h0
          simp only [runLoop]
          split
          · exact List.mem_cons_of_mem _ (List.mem_cons_of_mem _
              ((ih (i + 1) s hs).2 h0))
          · exact List.mem_cons_of_mem _ (List.mem_cons_of_mem _
              (List.mem_cons_of_mem _ ((ih (i + 1) s hs).2 h0)))

/-- With the dependencies available, `main` spawns exactly the subprocesses
the loop spawns. -/
theorem runMain_ok_invoked (py : String) (deps : Deps)
    (exec : String → SubprocResult) (h : deps.ok = true) :
    (runMain py deps exec).invoked = scripts.map (fun s => [py, s]) := by
  simp only [runMain, h, if_true]
  split <;> exact runLoop_invoked py exec 1 scripts

/-- With the dependencies available, `main`'s failure list is exactly the
scripts whose subprocess exited non-zero. -/
theorem runMain_ok_failed (py : String) (deps : Deps)
    (exec : String → SubprocResult) (h : deps.ok = true) :
    (runMain py deps exec).failed =
      scripts.filter (fun s => decide ((exec s).returncode ≠ 0)) := by
  simp only [runMain, h, if_true]
  split <;> exact runLoop_failed py exec 1 scripts

/-- With the dependencies available, `main` exits 0 when its failure list is
empty and 1 otherwise. -/
theorem runMain_ok_exit (py : String) (deps : Deps)
    (exec : String → SubprocResult) (h : deps.ok = true) :
    (runMain py deps exec).exitCode =
      if (runMain py deps exec).failed.isEmpty then 0 else 1 := by
  simp only [runMain, h, if_true]
  split
  · next hEmpty => simp [hEmpty]
  · next hEmpty => simp [hEmpty]

/-- With the dependencies available, every line the loop prints appears among
`main`'s printed lines. -/
theorem runMain_ok_printed_loop (py : String) (deps : Deps)
    (exec : String → SubprocResult) (h : deps.ok = true) :
    ∀ m ∈ (runLoop py exec 1 scripts).2.1,
      m ∈ (runMain py deps exec).printed := by
  intro m hm
  simp only [runMain, h, if_true]
  split <;>
  · simp only [List.mem_append, List.mem_cons]
    tauto

/-! Lemmas about the generator scripts. -/

/-- Executing a statement list with no external read is independent of the
environment. -/
theorem runBody_env_invariant (env env' : Env) :
    ∀ body : List Stmt, (body.all fun st => !stmtReads st) = true →
      runBody env body = runBody env' body := by
  intro body
  induction body with
  | nil => intro _; rfl
  | cons st rest ih =>
      intro h
      simp only [List.all_cons, Bool.and_eq_true] at h
      cases st with
      | lib => simpa [runBody] using ih h.2
      | save f => simp [runBody, ih h.2]
      | echo m => simp [runBody, ih h.2]
      | readIn src => simp [stmtReads] at h

/-- A script that reads no external input runs identically in every
environment, under every fault. -/
theorem runScript_env_invariant (g : Script) (hg : readsNoInput g = true)
    (env env' : Env) (fault : Option (Nat × String)) :
    runScript env g fault = runScript env' g fault := by
  have hb : ∀ st ∈ Script.body g, (!stmtReads st) = true := by
    simpa [readsNoInput, List.all_eq_true] using hg
  have hall : ∀ l : List Stmt, (∀ st ∈ l, (!stmtReads st) = true) →
      (l.all fun st => !stmtReads st) = true := by
    intro l hl
    rw [List.all_eq_true]
    exact hl
  have htake : ∀ k : Nat,
      (((Script.body g).take k).all fun st => !stmtReads st) = true := by
    intro k
    exact hall _ fun st hst => hb st (List.take_subset k _ hst)
  cases g with
  | plain n body =>
      cases fault with
      | none =>
          simp only [runScript]
          rw [runBody_env_invariant env env' body (hall _ hb)]
      | some p =>
          obtain ⟨k, msg⟩ := p
          simp only [runScript]
          rw [runBody_env_invariant env env' (body.take k) (htake k)]
  | guarded n tryBody eh ec fm =>
      cases fault with
      | none =>
          simp only [runScript]
          rw [runBody_env_invariant env env' tryBody (hall _ hb)]
      | some p =>
          obtain ⟨k, msg⟩ := p
          simp only [runScript]
          rw [runBody_env_invariant env env' (tryBody.take k) (htake k)]

/-- A statement list's own effects never include a standard-error line: the
scripts print only to standard output. -/
theorem runBody_no_stderr (env : Env) :
    ∀ body : List Stmt, (runBody env body).any isStderrPrint = false := by
  intro body
  induction body with
  | nil => rfl
  | cons st rest ih => cases st <;> simp [runBody, isStderrPrint, ih]

/-- A statement list's own effects never include an interpreter traceback. -/
theorem runBody_no_traceback (env : Env) :
    ∀ body : List Stmt, (runBody env body).any isTraceback = false := by
  intro body
  induction body with
  | nil => rfl
  | cons st rest ih => cases st <;> simp [runBody, isTraceback, ih]

/-- A plain (handler-less) generator on a library fault: exit status 1, an
interpreter traceback among the effects, nothing printed by the script to
standard error, and the exception uncaught. -/
theorem plain_failure_effects (env : Env) (n : String) (body : List Stmt)
    (k : Nat) (msg : String) :
    (runScript env (Script.plain n body) (some (k, msg))).exitCode = 1 ∧
    Effect.traceback msg ∈
      (runScript env (Script.plain n body) (some (k, msg))).effects ∧
    printedToStderr (runScript env (Script.plain n body) (some (k, msg))) =
      false ∧
    uncaught (runScript env (Script.plain n body) (some (k, msg))) = true := by
  refine ⟨rfl, ?_, ?_, ?_⟩
  · exact List.mem_append_right _ (List.mem_singleton_self _)
  · simp [printedToStderr, runScript, List.any_append, runBody_no_stderr,
      isStderrPrint]
  · simp [uncaught, runScript, List.any_append, isTraceback]

/-- A guarded generator on a library fault: the `except` clause prints the
error message to standard output, the `finally` clause prints the success
message to standard output, the process exits with the handler's exit code,
no traceback escapes, and nothing goes to standard error. -/
theorem guarded_failure_effects (env : Env) (n eh fm : String)
    (tryBody : List Stmt) (ec k : Nat) (msg : String) :
    (runScript env (Script.guarded n tryBody eh ec fm)
        (some (k, msg))).exitCode = ec ∧
    Effect.printLine StdStream.stdout (eh ++ msg) ∈
      (runScript env (Script.guarded n tryBody eh ec fm)
        (some (k, msg))).effects ∧
    Effect.printLine StdStream.stdout fm ∈
      (runScript env (Script.guarded n tryBody eh ec fm)
        (some (k, msg))).effects ∧
    uncaught (runScript env (Script.guarded n tryBody eh ec fm)
        (some (k, msg))) = false ∧
    printedToStderr (runScript env (Script.guarded n tryBody eh ec fm)
        (some (k, msg))) = false := by
  refine ⟨rfl, ?_, ?_, ?_, ?_⟩
  · exact List.mem_append_right _ (List.mem_cons_self _ _)
  · exact List.mem_append_right _
      (List.mem_cons_of_mem _ (List.mem_singleton_self _))
  · simp [uncaught, runScript, List.any_append, runBody_no_traceback,
      isTraceback]
  · simp [printedToStderr, runScript, List.any_append, runBody_no_stderr,
      isStderrPrint]

/-- A guarded generator with no library fault: exit status 0 and the
`finally` clause's success message among the printed effects. -/
theorem guarded_success_effects (env : Env) (n eh fm : String)
    (tryBody : List Stmt) (ec : Nat) :
    (runScript env (Script.guarded n tryBody eh ec fm) none).exitCode = 0 ∧
    Effect.printLine StdStream.stdout fm ∈
      (runScript env (Script.guarded n tryBody eh ec fm) none).effects := by
  exact ⟨rfl, List.mem_append_right _ (List.mem_singleton_self _)⟩

/-- In a duplicate-free list, a member is counted exactly once (stated for
the `BEq` instance the goal carries). -/
theorem count_eq_one_of_nodup_mem {α : Type} [BEq α] [LawfulBEq α] :
    ∀ (l : List α) (a : α), l.Nodup → a ∈ l → l.count a = 1 := by
  intro l
  induction l with
  | nil => intro a _ ha; cases ha
  | cons b t ih =>
      intro a hnd ha
      have hbt : b ∉ t := (List.nodup_cons.mp hnd).1
      have htnd : t.Nodup := (List.nodup_cons.mp hnd).2
      rcases List.mem_cons.mp ha with rfl | hat
      · rw [List.count_cons_self, List.count_eq_zero_of_not_mem hbt]
      · have hne : a ≠ b := fun he => hbt (he ▸ hat)
        rw [List.count_cons_of_ne hne, ih a htnd hat]

/-- Every expected base name's bullet line occurs in the success summary. -/
theorem successSummary_bullets :
    ∀ b ∈ expectedBases, ("  • " ++ b ++ ".pdf/png") ∈ successSummary := by
  decide

/-- With the dependencies available and no failures recorded by the loop,
every success-summary line is printed. -/
theorem runMain_ok_printed_success (py : String) (deps : Deps)
    (exec : String → SubprocResult) (h : deps.ok = true)
    (hf : (runLoop py exec 1 scripts).2.2 = []) :
    ∀ m ∈ successSummary, m ∈ (runMain py deps exec).printed := by
  intro m hm
  simp only [runMain, h, if_true, hf, List.isEmpty_nil, if_true]
  simp only [List.mem_append, List.mem_cons]
  tauto

/-- With the dependencies available and failures recorded by the loop, the
failure-count line and each failing script's bullet line are printed. -/
theorem runMain_ok_printed_failure (py : String) (deps : Deps)
    (exec : String → SubprocResult) (h : deps.ok = true)
    (hf : (runLoop py exec 1 scripts).2.2 ≠ []) :
    ("✗ " ++ toString (runLoop py exec 1 scripts).2.2.length ++
        " visualization(s) failed:") ∈ (runMain py deps exec).printed ∧
    ∀ s ∈ (runLoop py exec 1 scripts).2.2,
      ("  • " ++ s) ∈ (runMain py deps exec).printed := by
  have hfe : (runLoop py exec 1 scripts).2.2.isEmpty = false := by
    simpa [List.isEmpty_iff] using hf
  constructor
  · simp only [runMain, h, if_true, hfe, Bool.false_eq_true, if_false]
    simp only [List.mem_append, List.mem_cons]
    tauto
  · intro s hs
    simp only [runMain, h, if_true, hfe, Bool.false_eq_true, if_false]
    simp only [List.mem_append, List.mem_cons]
    exact Or.inr (List.mem_map_of_mem _ hs)

/-- Claim C2: if every generator subprocess exits 0, `main` exits 0 and the
printed summary holds all fourteen expected output base names; if some
generator subprocess exits non-zero, `main` exits non-zero and that script
occurs exactly once in its failure list (whose lines are what gets
printed). -/
theorem orchestrator_exit_and_lists (py : String) (deps : Deps)
    (exec : String → SubprocResult) (h : deps.ok = true) :
    ((∀ s ∈ scripts, (exec s).returncode = 0) →
      (runMain py deps exec).exitCode = 0 ∧
      ∀ b ∈ expectedBases,
        ("  • " ++ b ++ ".pdf/png") ∈ (runMain py deps exec).printed) ∧
    (∀ s ∈ scripts, (exec s).returncode ≠ 0 →
      (runMain py deps exec).exitCode ≠ 0 ∧
      (runMain py deps exec).failed.count s = 1 ∧
      ("  • " ++ s) ∈ (runMain py deps exec).printed) := by
  constructor
  · intro hall
    have hloop : (runLoop py exec 1 scripts).2.2 = [] := by
      rw [runLoop_failed, List.filter_eq_nil_iff]
      intro a ha
      simp [hall a ha]
    have hfail : (runMain py deps exec).failed = [] := by
      rw [runMain_ok_failed py deps exec h, List.filter_eq_nil_iff]
      intro a ha
      simp [hall a ha]
    constructor
    · rw [runMain_ok_exit py deps exec h, hfail]
      rfl
    · intro b hb
      exact runMain_ok_printed_success py deps exec h hloop _
        (successSummary_bullets b hb)
  · intro s hs hne
    have hmem : s ∈ scripts.filter
        (fun t => decide ((exec t).returncode ≠ 0)) :=
      List.mem_filter.mpr ⟨hs, by simpa using hne⟩
    have hfail := runMain_ok_failed py deps exec h
    have hloopf : (runLoop py exec 1 scripts).2.2 ≠ [] := by
      rw [runLoop_failed]
      exact List.ne_nil_of_mem hmem
    have hnonempty : ¬ (runMain py deps exec).failed.isEmpty = true := by
      rw [hfail, List.isEmpty_iff]
      intro hnil
      rw [hnil] at hmem
      cases hmem
    refine ⟨?_, ?_, ?_⟩
    · rw [runMain_ok_exit py deps exec h, if_neg hnonempty]
      exact one_ne_zero
    · rw [hfail]
      exact count_eq_one_of_nodup_mem _ s
        (List.Nodup.filter _ (by decide : scripts.Nodup)) hmem
    · have hsin : s ∈ (runLoop py exec 1 scripts).2.2 := by
        rw [runLoop_failed]
        exact hmem
      exact (runMain_ok_printed_failure py deps exec h hloopf).2 s hsin

/-- Witness for the C2 theorem at concrete inputs: with every subprocess
succeeding the exit status is 0, and with exactly the first generator failing
it is counted once. -/
theorem orchestrator_exit_and_lists_witness :
    (runMain "python3" depsPresent execAllOk).exitCode = 0 ∧
    (runMain "python3" depsPresent execFailFirst).failed.count
      "1_network_cost_comparison.py" = 1 :=
  ⟨((orchestrator_exit_and_lists "python3" depsPresent execAllOk rfl).1
      (by decide)).1,
   ((orchestrator_exit_and_lists "python3" depsPresent execFailFirst rfl).2
      "1_network_cost_comparison.py" (by decide) (by decide)).2.1⟩

/-- Claim C3: the orchestrator spawns the generators in the fixed list order
with captured output no matter which fail (so it continues past individual
failures), surfaces each captured stream, and ends with an aggregate
success/failure report. -/
theorem orchestrator_sequencing (py : String) (deps : Deps)
    (exec : String → SubprocResult) (h : deps.ok = true) :
    (runMain py deps exec).invoked = scripts.map (fun s => [py, s]) ∧
    (∀ s ∈ scripts,
      ((exec s).returncode = 0 →
        (exec s).stdout.trim ∈ (runMain py deps exec).printed) ∧
      ((exec s).returncode ≠ 0 →
        ("Error: " ++ (exec s).stderr) ∈ (runMain py deps exec).printed)) ∧
    ((runMain py deps exec).failed = [] →
      "✓ All visualizations generated successfully!" ∈
        (runMain py deps exec).printed) ∧
    ((runMain py deps exec).failed ≠ [] →
      ("✗ " ++ toString (runMain py deps exec).failed.length ++
          " visualization(s) failed:") ∈ (runMain py deps exec).printed) := by
  have hfail := runMain_ok_failed py deps exec h
  have hloopfail := runLoop_failed py exec 1 scripts
  refine ⟨runMain_ok_invoked py deps exec h, ?_, ?_, ?_⟩
  · intro s hs
    constructor
    · intro h0
      exact runMain_ok_printed_loop py deps exec h _
        ((runLoop_lines py exec 1 scripts s hs).1 h0)
    · intro h0
      exact runMain_ok_printed_loop py deps exec h _
        ((runLoop_lines py exec 1 scripts s hs).2 h0)
  · intro hnil
    have hloop : (runLoop py exec 1 scripts).2.2 = [] := by
      rw [hloopfail, ← hfail]
      exact hnil
    exact runMain_ok_printed_success py deps exec h hloop _ (by decide)
  · intro hne
    have hloop : (runLoop py exec 1 scripts).2.2 ≠ [] := by
      rw [hloopfail, ← hfail]
      exact hne
    have := (runMain_ok_printed_failure py deps exec h hloop).1
    rw [hfail, ← hloopfail]
    exact this

/-- Witness for the C3 theorem at concrete inputs: the invocation list under
an all-succeeding behaviour is the fixed fourteen argument vectors. -/
theorem orchestrator_sequencing_witness :
    (runMain "python3" depsPresent execAllOk).invoked =
      scripts.map (fun s => ["python3", s]) :=
  (orchestrator_sequencing "python3" depsPresent execAllOk rfl).1

/-- Claim C8: the orchestrator invokes exactly the fourteen generator
scripts, each exactly once, with no arguments beyond the interpreter and the
script name, in the fixed order of its script list. -/
theorem orchestrator_invokes_each_once (py : String) (deps : Deps)
    (exec : String → SubprocResult) (h : deps.ok = true) :
    scripts.length = 14 ∧ scripts.Nodup ∧
    (runMain py deps exec).invoked = scripts.map (fun s => [py, s]) ∧
    (∀ argv ∈ (runMain py deps exec).invoked, ∃ s ∈ scripts, argv = [py, s]) ∧
    (∀ s ∈ scripts, (runMain py deps exec).invoked.count [py, s] = 1) := by
  have hinv := runMain_ok_invoked py deps exec h
  have hinj : Function.Injective (fun s => [py, s]) := by
    intro a b hab
    simpa using hab
  refine ⟨by decide, by decide, hinv, ?_, ?_⟩
  · intro argv hargv
    rw [hinv] at hargv
    obtain ⟨s, hs, rfl⟩ := List.mem_map.mp hargv
    exact ⟨s, hs, rfl⟩
  · intro s hs
    rw [hinv]
    exact count_eq_one_of_nodup_mem _ [py, s]
      (List.Nodup.map hinj (by decide : scripts.Nodup))
      (List.mem_map_of_mem _ hs)

/-- Witness for the C8 theorem at concrete inputs: the first generator is
invoked exactly once. -/
theorem orchestrator_invokes_each_once_witness :
    (runMain "python3" depsPresent execAllOk).invoked.count
      ["python3", "1_network_cost_comparison.py"] = 1 :=
  (orchestrator_invokes_each_once "python3" depsPresent execAllOk rfl).2.2.2.2
    "1_network_cost_comparison.py" (by decide)

/-- Claim C10: if importing matplotlib or numpy fails, `main` exits 1 before
spawning any generator subprocess; its failure list is empty, so a non-zero
orchestrator exit does not imply that any generator failed. -/
theorem missing_dependency_exits_early (py : String) (deps : Deps)
    (exec : String → SubprocResult) (h : deps.ok = false) :
    (runMain py deps exec).exitCode = 1 ∧
    (runMain py deps exec).invoked = [] ∧
    (runMain py deps exec).failed = [] := by
  simp [runMain, h]

/-- Witness for the C10 theorem at concrete inputs: with matplotlib missing
and a behaviour under which every generator would succeed, `main` still exits
1 having spawned nothing. -/
theorem missing_dependency_exits_early_witness :
    (runMain "python3" depsMissing execAllOk).exitCode = 1 ∧
    (runMain "python3" depsMissing execAllOk).invoked = [] ∧
    (runMain "python3" depsMissing execAllOk).failed = [] :=
  missing_dependency_exits_early "python3" depsMissing execAllOk rfl

/-- A script with no library fault exits 0. -/
theorem runScript_none_exit (env : Env) (g : Script) :
    (runScript env g none).exitCode = 0 := by
  cases g <;> rfl

/-- A script on a library fault exits with its `exitOnFault` status. -/
theorem runScript_fault_exit (env : Env) (g : Script) (k : Nat)
    (msg : String) :
    (runScript env g (some (k, msg))).exitCode = exitOnFault g := by
  cases g <;> rfl

/-- On a library fault every script reports an error mentioning the
exception message: the interpreter traceback for a plain script, the
handler's printed line for a guarded one. -/
theorem runScript_fault_error (env : Env) (g : Script) (k : Nat)
    (msg : String) :
    ErrorReported msg (runScript env g (some (k, msg))) := by
  cases g with
  | plain n body =>
      exact Or.inl (List.mem_append_right _ (List.mem_singleton_self _))
  | guarded n tb eh ec fm =>
      exact Or.inr ⟨eh, List.mem_append_right _ (List.mem_cons_self _ _)⟩

/-- Claim C4: under normal library availability (no fault) every generator
writes exactly two output files — a PDF and a PNG sharing a base name taken
from the diagram's subject — into the current working directory, and exits
with status 0. -/
theorem generators_success_outputs (env : Env) :
    generators.map (fun g => filesWritten (runScript env g none)) =
      expectedBases.map (fun b => [b ++ ".pdf", b ++ ".png"]) ∧
    ∀ g ∈ generators, (runScript env g none).exitCode = 0 := by
  exact ⟨rfl, fun g _ => runScript_none_exit env g⟩

/-- Witness for the C4 theorem at a concrete input. -/
theorem generators_success_outputs_witness :
    (runScript env0 gen_deployment_stacked_bar none).exitCode = 0 :=
  (generators_success_outputs env0).2 gen_deployment_stacked_bar (by decide)

/-- Claim C5: a generator exits with non-zero status iff a plotting-library
call it makes raises an error, in which case an error mentioning the
exception is reported; with no such library error it completes and
exits 0. -/
theorem generator_exit_iff_library_error (g : Script) (hg : g ∈ generators)
    (env : Env) (fault : Option (Nat × String))
    (hf : faultOk g fault = true) :
    ((runScript env g fault).exitCode ≠ 0 ↔ fault ≠ none) ∧
    (fault = none → (runScript env g fault).exitCode = 0) ∧
    (∀ k msg, fault = some (k, msg) →
      ErrorReported msg (runScript env g fault)) := by
  have hex : exitOnFault g ≠ 0 := by
    have hall : ∀ x ∈ generators, exitOnFault x ≠ 0 := by decide
    exact hall g hg
  cases fault with
  | none =>
      refine ⟨?_, fun _ => runScript_none_exit env g, ?_⟩
      · rw [runScript_none_exit env g]
        simp
      · intro k msg h
        cases h
  | some p =>
      obtain ⟨k, msg⟩ := p
      refine ⟨?_, fun h => Option.noConfusion h, ?_⟩
      · rw [runScript_fault_exit env g k msg]
        simp [hex]
      · intro k' msg' h
        simp only [Option.some.injEq, Prod.mk.injEq] at h
        obtain ⟨rfl, rfl⟩ := h
        exact runScript_fault_error env g k msg

/-- Witness for the C5 theorem at a concrete input: the first generator with
a fault in its first statement exits non-zero. -/
theorem generator_exit_iff_library_error_witness :
    (runScript env0 gen_network_cost_comparison (some (0, "boom"))).exitCode
      ≠ 0 :=
  (generator_exit_iff_library_error gen_network_cost_comparison (by decide)
      env0 (some (0, "boom")) (by decide)).1.mpr (by decide)

/-- Claim C6: each generator writes the same two file names on every run,
never touches another generator's output files, and the twenty-eight output
file names across the fourteen generators are pairwise distinct. -/
theorem generator_outputs_fixed_disjoint (env env' : Env) :
    (∀ g ∈ generators,
      filesWritten (runScript env g none) =
        filesWritten (runScript env' g none)) ∧
    (∀ g ∈ generators, ∀ g' ∈ generators, g ≠ g' →
      ∀ f ∈ filesWritten (runScript env g none),
        f ∉ filesWritten (runScript env' g' none)) ∧
    (generators.flatMap fun g => filesWritten (runScript env g none)).Nodup := by
  have hnr : ∀ x ∈ generators, readsNoInput x = true := by decide
  have hinv : ∀ (e e' : Env), ∀ g ∈ generators,
      filesWritten (runScript e g none) =
        filesWritten (runScript e' g none) := by
    intro e e' g hg
    rw [runScript_env_invariant g (hnr g hg) e e' none]
  refine ⟨hinv env env', ?_, ?_⟩
  · have hd : ∀ g ∈ generators, ∀ g' ∈ generators, g ≠ g' →
        ∀ f ∈ filesWritten (runScript env0 g none),
          f ∉ filesWritten (runScript env0 g' none) := by decide
    intro g hg g' hg' hne f hf
    rw [hinv env' env0 g' hg']
    rw [hinv env env0 g hg] at hf
    exact hd g hg g' hg' hne f hf
  · have hb : (generators.flatMap fun g => filesWritten (runScript env g none)) =
        ["network_cost_comparison.pdf", "network_cost_comparison.png",
         "infrastructure_cost_pie.pdf", "infrastructure_cost_pie.png",
         "tco_line_chart.pdf", "tco_line_chart.png",
         "deployment_stacked_bar.pdf", "deployment_stacked_bar.png",
         "operation_costs_radar.pdf", "operation_costs_radar.png",
         "deployment_waterfall.pdf", "deployment_waterfall.png",
         "seven_primitives_wheel.pdf", "seven_primitives_wheel.png",
         "contract_hierarchy.pdf", "contract_hierarchy.png",
         "multi_currency_pricing.pdf", "multi_currency_pricing.png",
         "token_lifecycle.pdf", "token_lifecycle.png",
         "ai_agent_workflow.pdf", "ai_agent_workflow.png",
         "composability_stack.pdf", "composability_stack.png",
         "gas_optimization_tradeoffs.pdf", "gas_optimization_tradeoffs.png",
         "paradigm_shift.pdf", "paradigm_shift.png"] := rfl
    rw [hb]
    decide

/-- Witness for the C6 theorem at a concrete input: the first generator never
writes the pie chart's PDF. -/
theorem generator_outputs_fixed_disjoint_witness :
    "infrastructure_cost_pie.pdf" ∉
      filesWritten (runScript env0 gen_network_cost_comparison none) := by
  intro hmem
  exact (generator_outputs_fixed_disjoint env0 env0).2.1
    gen_infrastructure_cost_pie (by decide) gen_network_cost_comparison
    (by decide) (by decide) "infrastructure_cost_pie.pdf" (by decide) hmem

/-- Claim C7: no generator reads any external input, so a generator's
observable run is a function only of its embedded script (and the library
fault): it is identical across all environments — arguments, environment
variables, files, network. -/
theorem generators_no_external_input (g : Script) (hg : g ∈ generators) :
    readsNoInput g = true ∧
    ∀ (env env' : Env) (fault : Option (Nat × String)),
      runScript env g fault = runScript env' g fault := by
  have hnr : ∀ x ∈ generators, readsNoInput x = true := by decide
  exact ⟨hnr g hg,
    fun env env' fault => runScript_env_invariant g (hnr g hg) env env' fault⟩

/-- Witness for the C7 theorem at a concrete input: the TCO chart generator
runs identically with and without arguments and environment data. -/
theorem generators_no_external_input_witness :
    runScript env0 gen_tco_line_chart none =
      runScript envArgs gen_tco_line_chart none :=
  (generators_no_external_input gen_tco_line_chart (by decide)).2
    env0 envArgs none

/-- Claim C1 as stated is false: it is not the case that every generator
catches its drawing/saving failure itself and logs the error message to
standard error before exiting non-zero.  1_network_cost_comparison.py has no
handler: on a fault the exception escapes as an interpreter traceback and the
script prints nothing to standard error. -/
theorem generator_catch_stderr_counterexample :
    ¬ (∀ g ∈ generators, ∀ fault : Option (Nat × String),
        faultOk g fault = true → fault ≠ none →
        uncaught (runScript env0 g fault) = false ∧
        printedToStderr (runScript env0 g fault) = true ∧
        (runScript env0 g fault).exitCode ≠ 0) := by
  intro hclaim
  have h := (hclaim gen_network_cost_comparison (by decide)
      (some (0, "boom")) (by decide) (by decide)).1
  have hu : uncaught (runScript env0 gen_network_cost_comparison
      (some (0, "boom"))) = true := by decide
  rw [h] at hu
  exact Bool.noConfusion hu

/-- Claim C1 amended: on a drawing/saving fault every generator exits
non-zero and an error mentioning the exception is reported, but only
4_deployment_stacked_bar.py catches the failure itself — and it prints the
error to standard output; the other thirteen scripts let the exception
escape as an interpreter traceback (which lands on standard error) and print
nothing to standard error themselves. -/
theorem generator_failure_reporting (g : Script) (hg : g ∈ generators)
    (env : Env) (k : Nat) (msg : String)
    (hf : faultOk g (some (k, msg)) = true) :
    (runScript env g (some (k, msg))).exitCode ≠ 0 ∧
    ErrorReported msg (runScript env g (some (k, msg))) ∧
    (g = gen_deployment_stacked_bar →
      Effect.printLine StdStream.stdout
          ("✗ Error generating deployment_stacked_bar: " ++ msg) ∈
        (runScript env g (some (k, msg))).effects ∧
      uncaught (runScript env g (some (k, msg))) = false) ∧
    (g ≠ gen_deployment_stacked_bar →
      Effect.traceback msg ∈ (runScript env g (some (k, msg))).effects ∧
      printedToStderr (runScript env g (some (k, msg))) = false) := by
  refine ⟨?_, runScript_fault_error env g k msg, ?_, ?_⟩
  · rw [runScript_fault_exit env g k msg]
    have hall : ∀ x ∈ generators, exitOnFault x ≠ 0 := by decide
    exact hall g hg
  · intro he
    subst he
    exact ⟨(guarded_failure_effects env _ _ _ _ _ k msg).2.1,
           (guarded_failure_effects env _ _ _ _ _ k msg).2.2.2.1⟩
  · intro hne
    have hp : isPlain g = true := by
      have hall : ∀ x ∈ generators,
          x ≠ gen_deployment_stacked_bar → isPlain x = true := by decide
      exact hall g hg hne
    cases g with
    | plain n body =>
        exact ⟨(plain_failure_effects env n body k msg).2.1,
               (plain_failure_effects env n body k msg).2.2.1⟩
    | guarded n tb eh ec fm => simp [isPlain] at hp

/-- Witness for the amended C1 theorem at a concrete input: the first
generator's fault surfaces as an interpreter traceback. -/
theorem generator_failure_reporting_witness :
    Effect.traceback "boom" ∈
      (runScript env0 gen_network_cost_comparison (some (0, "boom"))).effects :=
  ((generator_failure_reporting gen_network_cost_comparison (by decide) env0
      0 "boom" (by decide)).2.2.2 (by decide)).1

/-- Claim C9: in 4_deployment_stacked_bar.py the `finally` block prints the
success message to standard output on every run; on the failure path the
script prints both the error message and the success message to standard
output and still exits with status 1. -/
theorem stacked_bar_finally_always_prints (env : Env)
    (fault : Option (Nat × String))
    (hf : faultOk gen_deployment_stacked_bar fault = true) :
    Effect.printLine StdStream.stdout
        "✓ Generated: deployment_stacked_bar.pdf/png" ∈
      (runScript env gen_deployment_stacked_bar fault).effects ∧
    ∀ k msg, fault = some (k, msg) →
      (runScript env gen_deployment_stacked_bar fault).exitCode = 1 ∧
      Effect.printLine StdStream.stdout
          ("✗ Error generating deployment_stacked_bar: " ++ msg) ∈
        (runScript env gen_deployment_stacked_bar fault).effects := by
  cases fault with
  | none =>
      refine ⟨(guarded_success_effects env _ _ _ _ _).2, ?_⟩
      intro k msg h
      cases h
  | some p =>
      obtain ⟨k, msg⟩ := p
      refine ⟨(guarded_failure_effects env _ _ _ _ _ k msg).2.2.1, ?_⟩
      intro k' msg' h
      simp only [Option.some.injEq, Prod.mk.injEq] at h
      obtain ⟨rfl, rfl⟩ := h
      exact ⟨(guarded_failure_effects env _ _ _ _ _ k msg).1,
             (guarded_failure_effects env _ _ _ _ _ k msg).2.1⟩

/-- Witness for the C9 theorem at a concrete input: with a fault in the
first drawing statement the success message is still printed and the exit
status is 1. -/
theorem stacked_bar_finally_always_prints_witness :
    Effect.printLine StdStream.stdout
        "✓ Generated: deployment_stacked_bar.pdf/png" ∈
      (runScript env0 gen_deployment_stacked_bar (some (0, "boom"))).effects ∧
    (runScript env0 gen_deployment_stacked_bar (some (0, "boom"))).exitCode
      = 1 :=
  ⟨(stacked_bar_finally_always_prints env0 (some (0, "boom")) (by decide)).1,
   ((stacked_bar_finally_always_prints env0 (some (0, "boom"))
      (by decide)).2 0 "boom" rfl).1⟩

end EVMAuthDiag
